import Mathlib

/-!
# Rehearse interview orchestrator: shallow embedding

This file embeds the turn-orchestration state machine of
`src/frontend/src/app/interview/page.tsx` as an explicit event-step
function on a state record, and proves properties of that embedding.

Modelling notes:
- Every React `useState`/`useRef` cell that the orchestration logic reads
  or writes becomes a field of `OrchState`.  The three watchdog timers are
  modelled as armed/disarmed flags; an armed timer may fire as an
  environment event, firing disarms it (one-shot `setTimeout`).
- Each `async` handler is split at its `await` points: the synchronous
  prefix runs in the step that receives the triggering event, and the
  continuation after `await playAudio(...)` is stored in `Pending` and run
  when the environment delivers the playback-finished event (the promise
  resolution).  When `muted` or `isExiting` holds at the call site,
  `playAudio` resolves immediately, so the continuation runs in the same
  step, exactly as in the source.
- The decision-service round trip (`apiFetch("/turn/next")`) is likewise a
  suspension: `Pending.service` holds the submitted transcript, and the
  environment delivers either a parsed response or a failure (network
  error or non-2xx, which the source merges via `throw` into the same
  `catch`).
- `sessionData` is assumed loaded (the interview page redirects away
  before the orchestrator runs otherwise); its `greetingText` is carried
  as a read-only field.
- `serviceRequests`, `lastResponseAction` and `lastAskFollowup` are
  history (ghost) fields used only by specifications: they record, in
  order, the transcripts submitted to the decision service, the action of
  the most recent applied decision-service response, and whether the most
  recent applied phase-updating (`ASK_MAIN`/`ASK_FOLLOWUP`) response was a
  follow-up request.  No guard of the model reads them.
- `persistedTurns`/`persistedIncomplete`/`persistedRRC` model the
  `localStorage` writes performed at the `END` continuation and in
  `handleExitInterview`.
-/

namespace Rehearse

/-- `type InterviewState` of the source. -/
inductive InterviewState where
  | DOOR_OPENING
  | AI_SPEAKING
  | USER_LISTENING
  | THINKING
  | DOOR_CLOSING
deriving DecidableEq, Repr

/-- `type Phase` of the source. -/
inductive Phase where
  | GREETING
  | MAIN
  | FOLLOWUP
deriving DecidableEq, Repr

/-- The `type` discriminant of `interface Turn`. -/
inductive TurnType where
  | ai
  | user
deriving DecidableEq, Repr

/-- `interface Turn` of the source. -/
structure Turn where
  type : TurnType
  aiText : String
  userTranscript : String
deriving DecidableEq, Repr

/-- The `action` field of a decision-service response. -/
inductive TurnAction where
  | ASK_MAIN
  | ASK_FOLLOWUP
  | REPEAT_QUESTION
  | END
deriving DecidableEq, Repr

/-- Parsed body of a successful `/turn/next` response. -/
structure TurnDecision where
  action : TurnAction
  aiText : String
  mainQuestionIndex : Int
  followupCount : Int
deriving DecidableEq, Repr

/-- The continuation stored for the code following an `await playAudio(...)`:
which handler is suspended, together with the data its continuation closes
over. -/
inductive AfterPlay where
  /-- Greeting effect, lines 476-489: append `[aiTurn]`, clear transcript,
  go to listening. -/
  | greeting (txt : String)
  /-- `repeatCurrentQuestion`, lines 196-204: clear transcript and snapshot,
  go back to listening. -/
  | repeatLocal
  /-- `REPEAT_QUESTION` branch of `processNextTurn`, lines 399-406. -/
  | repeatService
  /-- `ASK_MAIN`/`ASK_FOLLOWUP` tail of `processNextTurn`, lines 451-457. -/
  | question
  /-- `END` branch of `processNextTurn`, lines 412-430: persist history with
  the final AI turn, go to `DOOR_CLOSING`. -/
  | ending (finalAiText : String)
deriving DecidableEq, Repr

/-- What the orchestrator is currently awaiting. -/
inductive Pending where
  | none
  | playback (txt : String) (k : AfterPlay)
  | service (userText : String)
deriving DecidableEq, Repr

/-- Returns true when a playback promise is outstanding. -/
def Pending.isPlayback : Pending → Bool
  | .playback _ _ => true
  | _ => false

/-- Returns true when a decision-service call is outstanding. -/
def Pending.isService : Pending → Bool
  | .service _ => true
  | _ => false

/-- The orchestrator state: one field per `useState`/`useRef` cell the
orchestration logic touches, plus the suspension bookkeeping and the ghost
history fields described in the header. -/
structure OrchState where
  state : InterviewState
  phase : Phase
  mainQuestionIndex : Int
  followupCount : Int
  repeatRequestCount : Nat
  currentAiText : String
  transcript : String
  /-- `transcriptRef.current`, the immediately-readable snapshot. -/
  transcriptRef : String
  turns : List Turn
  muted : Bool
  silenceWarning : Bool
  /-- `speechStartedRef.current`. -/
  speechStarted : Bool
  /-- A speech-recognition session is live (`recognitionRef` holds a started
  recognition). -/
  captureActive : Bool
  /-- `isAudioPlaying`. -/
  playbackActive : Bool
  /-- `noSpeechTimerRef` holds an armed 25s timer. -/
  noSpeechArmed : Bool
  /-- `repeatQuestionTimerRef` holds an armed 30s timer. -/
  repeatArmed : Bool
  /-- `silenceTimerRef` holds an armed 1.5s post-speech timer. -/
  silenceArmed : Bool
  /-- A 500ms recoverable-error restart timer is armed (line 298). -/
  restartPending : Bool
  /-- `isExitingRef.current`. -/
  isExiting : Bool
  pending : Pending
  /-- `sessionData.greetingText` (read-only session configuration). -/
  greetingText : String
  /-- Ghost: transcripts submitted to `/turn/next`, in order. -/
  serviceRequests : List String
  /-- Ghost: action of the most recent applied decision-service response. -/
  lastResponseAction : Option TurnAction
  /-- Ghost: for the most recent applied phase-updating response, whether it
  was `ASK_FOLLOWUP`. -/
  lastAskFollowup : Option Bool
  /-- `localStorage.interviewTurns`, when written. -/
  persistedTurns : Option (List Turn)
  /-- `localStorage.interviewIncomplete` (false models removal). -/
  persistedIncomplete : Option Bool
  /-- `localStorage.repeatRequestCount`, when written. -/
  persistedRRC : Option Nat
deriving DecidableEq, Repr

/-- Events delivered to the orchestrator by the environment (timers, the
speech-recognition engine, the audio element, the decision service, the
user). -/
inductive Event where
  /-- The 2000ms `DOOR_OPENING` timer of lines 471-490 fires. -/
  | greetTimerFired
  /-- `audio.onplay` fires. -/
  | playbackStarted
  /-- The `playAudio` promise resolves (`onended`, `onerror`, rejected
  `play()`, or a failed/absent tts fetch). -/
  | playbackFinished
  /-- `recognition.onresult` with the cumulative result list; each element
  is `(isFinal, transcript)`. -/
  | speechResult (results : List (Bool × String))
  /-- The 1.5s post-speech pause timer fires. -/
  | silenceTimerFired
  /-- The 25s no-speech warning timer fires. -/
  | noSpeechTimerFired
  /-- The 30s repeat-question timer fires. -/
  | repeatTimerFired
  /-- The recognition `end` event fires (`recognition.onend` plus the
  `handleEnd` listener of lines 495-508). -/
  | captureEnded
  /-- `recognition.onerror`; `recoverable` is true for `no-speech` and
  `audio-capture`. -/
  | captureErrored (recoverable : Bool)
  /-- The 500ms restart timer of the recoverable-error path fires. -/
  | errorRestartFired
  /-- The user clicks Stop Answer (`handleStopAnswer`); the button renders
  only in `USER_LISTENING`. -/
  | stopAnswerClicked
  /-- The `/turn/next` round trip settles: `some` parsed response, or
  `none` covering both network failure and non-2xx. -/
  | serviceResponse (r : Option TurnDecision)
  /-- `handleExitInterview` runs. -/
  | exitRequested
  /-- The mute button is toggled. -/
  | muteToggled
deriving DecidableEq, Repr

/-- `startListening`, lines 207-314: the synchronous part that (unless
exiting) starts a fresh recognition session, resets the speech flag and
snapshot, clears the warning, and arms the 25s and 30s timers. -/
def startListening (s : OrchState) : OrchState :=
  if s.isExiting then s
  else
    { s with
      captureActive := true
      speechStarted := false
      transcriptRef := ""
      silenceWarning := false
      noSpeechArmed := true
      repeatArmed := true }

/-- `stopListening`, lines 324-338: stop recognition and clear all three
timers. -/
def stopListening (s : OrchState) : OrchState :=
  { s with
    captureActive := false
    silenceArmed := false
    noSpeechArmed := false
    repeatArmed := false }

/-- `stopAllMedia`, lines 65-85: stop audio, stop recognition, clear all
timers, drop the playing flag. -/
def stopAllMedia (s : OrchState) : OrchState :=
  { s with
    playbackActive := false
    captureActive := false
    silenceArmed := false
    noSpeechArmed := false
    repeatArmed := false }

/-- Synchronous prefix of `processNextTurn`, lines 354-385: guard, enter
`THINKING`, append the user turn, and issue the decision-service request. -/
def processNextTurn (userText : String) (s : OrchState) : OrchState :=
  if s.isExiting then s
  else
    { s with
      state := .THINKING
      turns := s.turns ++ [⟨.user, s.currentAiText, userText⟩]
      serviceRequests := s.serviceRequests ++ [userText]
      pending := .service userText }

/-- The continuation resumed when an awaited `playAudio` promise resolves.
Every branch begins with the source's `if (isExitingRef.current) return`. -/
def afterPlay (k : AfterPlay) (s : OrchState) : OrchState :=
  match k with
  | .greeting txt =>
      if s.isExiting then s
      else
        startListening
          { s with
            turns := [⟨.ai, txt, ""⟩]
            transcript := ""
            state := .USER_LISTENING }
  | .repeatLocal =>
      if s.isExiting then s
      else
        startListening
          { s with
            transcript := ""
            transcriptRef := ""
            state := .USER_LISTENING }
  | .repeatService =>
      if s.isExiting then s
      else
        startListening { s with transcript := "", state := .USER_LISTENING }
  | .question =>
      if s.isExiting then s
      else
        startListening { s with transcript := "", state := .USER_LISTENING }
  | .ending finalAiText =>
      if s.isExiting then s
      else
        { s with
          persistedTurns := some (s.turns ++ [⟨.ai, finalAiText, ""⟩])
          persistedIncomplete := some false
          persistedRRC := some s.repeatRequestCount
          state := .DOOR_CLOSING }

/-- A call site of `await playAudio txt` with continuation `k`.  When muted
or exiting, `playAudio` resolves immediately (lines 122-124), so the
continuation runs in the same step; otherwise the continuation is suspended
until the environment resolves the playback. -/
def playCall (txt : String) (k : AfterPlay) (s : OrchState) : OrchState :=
  if s.muted || s.isExiting then afterPlay k s
  else { s with pending := .playback txt k }

/-- `repeatCurrentQuestion`, lines 177-205: the synchronous part up to the
`await`. -/
def repeatCurrentQuestion (s : OrchState) : OrchState :=
  if s.currentAiText = "" ∨ s.state ≠ .USER_LISTENING ∨ s.isExiting then s
  else
    playCall ("Let me repeat the question. " ++ s.currentAiText) .repeatLocal
      { s with
        captureActive := false
        silenceArmed := false
        noSpeechArmed := false
        repeatArmed := false
        silenceWarning := false
        state := .AI_SPEAKING }

/-- Concatenation, in arrival order, of the segments selected by `p`. -/
def joinSegs (p : Bool) (results : List (Bool × String)) : String :=
  String.join ((results.filter (fun r => r.1 == p)).map (fun r => r.2))

/-- The event-step function: how each environment event transforms the
orchestrator state, transcribed handler by handler from the source. -/
def step (e : Event) (s : OrchState) : OrchState :=
  match e with
  | .greetTimerFired =>
      -- Lines 468-493: fires only in DOOR_OPENING with session data loaded.
      if s.state = .DOOR_OPENING ∧ ¬s.isExiting then
        playCall s.greetingText (.greeting s.greetingText)
          { s with currentAiText := s.greetingText, state := .AI_SPEAKING }
      else s
  | .playbackStarted =>
      -- audio.onplay, lines 146-150.
      if s.pending.isPlayback ∧ ¬s.isExiting then
        { s with playbackActive := true }
      else s
  | .playbackFinished =>
      match s.pending with
      | .playback _ k =>
          afterPlay k { s with pending := .none, playbackActive := false }
      | _ => s
  | .speechResult results =>
      -- recognition.onresult, lines 239-286.
      if ¬s.captureActive ∨ s.isExiting then s
      else
        let finalT := joinSegs true results
        let interimT := joinSegs false results
        let currentT := if finalT ≠ "" then finalT else interimT
        let s1 :=
          { s with
            speechStarted := true
            silenceWarning := false
            noSpeechArmed := false
            repeatArmed := false }
        let s2 :=
          if currentT ≠ "" then
            { s1 with transcript := currentT, transcriptRef := currentT }
          else s1
        { s2 with silenceArmed := decide (finalT ≠ "") }
  | .silenceTimerFired =>
      -- Lines 280-284: the body only requests recognition.stop(); the
      -- resulting end event is delivered separately as captureEnded.
      if s.silenceArmed then { s with silenceArmed := false } else s
  | .noSpeechTimerFired =>
      -- Lines 226-230.
      if s.noSpeechArmed then
        { s with
          noSpeechArmed := false
          silenceWarning :=
            s.silenceWarning || (!s.speechStarted && !s.isExiting) }
      else s
  | .repeatTimerFired =>
      -- Lines 232-237.
      if s.repeatArmed then
        let s1 := { s with repeatArmed := false }
        if ¬s1.speechStarted ∧ ¬s1.isExiting then repeatCurrentQuestion s1
        else s1
      else s
  | .captureEnded =>
      -- recognition.onend (lines 306-310) plus handleEnd (lines 495-508).
      if ¬s.captureActive then s
      else
        let s1 :=
          { s with
            captureActive := false
            silenceArmed := false
            noSpeechArmed := false
            repeatArmed := false }
        let currentT :=
          if s1.transcriptRef ≠ "" then s1.transcriptRef else s1.transcript
        if s1.state = .USER_LISTENING ∧ currentT ≠ "" ∧ ¬s1.isExiting then
          processNextTurn currentT s1
        else s1
  | .captureErrored recoverable =>
      -- recognition.onerror, lines 288-304.
      if ¬s.captureActive ∨ s.isExiting then s
      else
        let s1 :=
          { s with
            silenceArmed := false
            noSpeechArmed := false
            repeatArmed := false }
        if recoverable then { s1 with restartPending := true } else s1
  | .errorRestartFired =>
      -- Lines 298-302.
      if s.restartPending then
        let s1 := { s with restartPending := false }
        if s1.state = .USER_LISTENING ∧ ¬s1.speechStarted ∧ ¬s1.isExiting then
          { s1 with captureActive := true }
        else s1
      else s
  | .stopAnswerClicked =>
      -- handleStopAnswer, lines 510-516; the button renders only in
      -- USER_LISTENING.
      if s.state = .USER_LISTENING then
        let s1 := stopListening s
        let currentT :=
          if s1.transcriptRef ≠ "" then s1.transcriptRef else s1.transcript
        if currentT ≠ "" then processNextTurn currentT s1 else s1
      else s
  | .serviceResponse r =>
      match s.pending with
      | .service _ =>
          let s0 := { s with pending := .none }
          match r with
          | none =>
              -- catch branch, lines 459-465.
              if s0.isExiting then s0
              else startListening { s0 with state := .USER_LISTENING }
          | some d =>
              -- Line 388: abandon if exiting.
              if s0.isExiting then s0
              else
                let s1 := { s0 with lastResponseAction := some d.action }
                match d.action with
                | .REPEAT_QUESTION =>
                    -- Lines 393-407.
                    playCall d.aiText .repeatService
                      { s1 with
                        repeatRequestCount := s1.repeatRequestCount + 1
                        currentAiText := d.aiText
                        state := .AI_SPEAKING }
                | .END =>
                    -- Lines 409-431.
                    playCall d.aiText (.ending d.aiText)
                      { s1 with
                        currentAiText := d.aiText
                        state := .AI_SPEAKING }
                | _ =>
                    -- Lines 433-457.
                    playCall d.aiText .question
                      { s1 with
                        currentAiText := d.aiText
                        mainQuestionIndex := d.mainQuestionIndex
                        followupCount := d.followupCount
                        phase :=
                          if d.action = .ASK_FOLLOWUP then .FOLLOWUP
                          else .MAIN
                        lastAskFollowup := some (d.action = .ASK_FOLLOWUP)
                        turns := s1.turns ++ [⟨.ai, d.aiText, ""⟩]
                        state := .AI_SPEAKING }
      | _ => s
  | .exitRequested =>
      -- handleExitInterview, lines 340-352.
      let s1 := stopAllMedia { s with isExiting := true }
      { s1 with
        persistedTurns := some s1.turns
        persistedIncomplete := some true
        persistedRRC := some s1.repeatRequestCount }
  | .muteToggled => { s with muted := !s.muted }

/-- Run a sequence of environment events from a state. -/
def run (s : OrchState) (evs : List Event) : OrchState :=
  evs.foldl (fun t e => step e t) s

/-- The state at mount, after session data has loaded: everything at its
`useState`/`useRef` initial value. -/
def initState (greeting : String) : OrchState where
  state := .DOOR_OPENING
  phase := .GREETING
  mainQuestionIndex := 0
  followupCount := 0
  repeatRequestCount := 0
  currentAiText := ""
  transcript := ""
  transcriptRef := ""
  turns := []
  muted := false
  silenceWarning := false
  speechStarted := false
  captureActive := false
  playbackActive := false
  noSpeechArmed := false
  repeatArmed := false
  silenceArmed := false
  restartPending := false
  isExiting := false
  pending := .none
  greetingText := greeting
  serviceRequests := []
  lastResponseAction := none
  lastAskFollowup := none
  persistedTurns := none
  persistedIncomplete := none
  persistedRRC := none

/-! ## Exit permanence -/

/-- After an exit request: the flag is set and no media session is live. -/
def ExitInv (s : OrchState) : Prop :=
  s.isExiting = true ∧ s.captureActive = false ∧ s.playbackActive = false

theorem afterPlay_exiting (k : AfterPlay) (s : OrchState)
    (h : s.isExiting = true) : afterPlay k s = s := by
  cases k <;> simp [afterPlay, h]

theorem processNextTurn_exiting (t : String) (s : OrchState)
    (h : s.isExiting = true) : processNextTurn t s = s := by
  simp [processNextTurn, h]

theorem startListening_exiting (s : OrchState)
    (h : s.isExiting = true) : startListening s = s := by
  simp [startListening, h]

theorem exitInv_step (e : Event) (s : OrchState) (h : ExitInv s) :
    ExitInv (step e s) := by
  obtain ⟨hx, hc, hp⟩ := h
  cases e with
  | greetTimerFired => simp [step, hx, ExitInv, hc, hp]
  | playbackStarted => simp [step, hx, ExitInv, hc, hp]
  | playbackFinished =>
      rcases hpend : s.pending with _ | ⟨txt, k⟩ | u <;>
        simp only [step, hpend]
      · exact ⟨hx, hc, hp⟩
      · rw [afterPlay_exiting k _ (by simpa using hx)]
        exact ⟨hx, hc, rfl⟩
      · exact ⟨hx, hc, hp⟩
  | speechResult results => simp [step, hx, ExitInv, hc, hp]
  | silenceTimerFired =>
      by_cases h1 : s.silenceArmed <;> simp [step, h1, ExitInv, hx, hc, hp]
  | noSpeechTimerFired =>
      by_cases h1 : s.noSpeechArmed <;> simp [step, h1, ExitInv, hx, hc, hp]
  | repeatTimerFired =>
      by_cases h1 : s.repeatArmed <;> simp [step, h1, ExitInv, hx, hc, hp]
  | captureEnded => simp [step, hc, ExitInv, hx, hp]
  | captureErrored recoverable => simp [step, hc, hx, ExitInv, hp]
  | errorRestartFired =>
      by_cases h1 : s.restartPending <;>
        simp [step, h1, ExitInv, hx, hc, hp]
  | stopAnswerClicked =>
      by_cases h1 : s.state = .USER_LISTENING
      · simp only [step, h1, if_true]
        rw [processNextTurn_exiting _ _ (by simpa [stopListening] using hx)]
        split <;> simp [stopListening, ExitInv, hx, hp]
      · simp [step, h1, ExitInv, hx, hc, hp]
  | serviceResponse r =>
      rcases hpend : s.pending with _ | ⟨txt, k⟩ | u <;>
        simp only [step, hpend]
      · exact ⟨hx, hc, hp⟩
      · exact ⟨hx, hc, hp⟩
      · rcases r with _ | d <;> simp [hx, ExitInv, hc, hp]
  | exitRequested => simp [step, stopAllMedia, ExitInv]
  | muteToggled => simp [step, ExitInv, hx, hc, hp]

theorem exitInv_run (s : OrchState) (evs : List Event) (h : ExitInv s) :
    ExitInv (run s evs) := by
  induction evs generalizing s with
  | nil => exact h
  | cons e evs ih => exact ih _ (exitInv_step e s h)

theorem exitInv_exitRequested (s : OrchState) :
    ExitInv (step .exitRequested s) := by
  simp [step, stopAllMedia, ExitInv]

/-- C5: once the exiting flag is set by an exit request, every subsequent
event sequence leaves it set, and neither a speech-capture session nor an
audio playback ever becomes active again: no later `play()` or capture
`start()` call takes observable effect for the remaining lifetime of the
interview instance. -/
theorem c5_exit_permanent (s : OrchState) (evs : List Event) :
    (run (step .exitRequested s) evs).isExiting = true ∧
      (run (step .exitRequested s) evs).captureActive = false ∧
      (run (step .exitRequested s) evs).playbackActive = false :=
  exitInv_run _ evs (exitInv_exitRequested s)

/-! ## The repeat-request counter -/

/-- The one situation in which the source mutates `repeatRequestCount`:
a decision-service response with action `REPEAT_QUESTION` arrives for an
outstanding request and the orchestrator is not exiting (line 394). -/
def rrcIncrements (s : OrchState) (e : Event) : Bool :=
  match e with
  | .serviceResponse (some d) =>
      s.pending.isService && !s.isExiting &&
        (d.action == TurnAction.REPEAT_QUESTION)
  | _ => false

/-- C1 (amended): `repeatRequestCount` changes only by increments of
exactly one, and exactly on applied `REPEAT_QUESTION` decision-service
responses; every other event — including a fired repeat timer — leaves it
unchanged, so in particular it never decrements. -/
theorem c1_repeatRequestCount_update (s : OrchState) (e : Event) :
    (step e s).repeatRequestCount
      = s.repeatRequestCount + (if rrcIncrements s e then 1 else 0) := by
  cases e <;>
    simp only [step, rrcIncrements, startListening, stopListening,
      stopAllMedia, processNextTurn, afterPlay, playCall,
      repeatCurrentQuestion, Pending.isService, Pending.isPlayback] <;>
    (repeat' split) <;> simp_all

/-! ## Media exclusion invariant -/

/-- The inductive invariant behind media exclusion: a live capture session
exists only while listening with nothing awaited; a live playback only
while speaking with its promise outstanding; an outstanding playback
promise only while speaking with no capture; an outstanding decision call
only while thinking with no media. -/
def InvA (s : OrchState) : Prop :=
  (s.captureActive = true →
      s.state = .USER_LISTENING ∧ s.pending = .none ∧
        s.playbackActive = false)
    ∧ (s.playbackActive = true →
      s.state = .AI_SPEAKING ∧ s.pending.isPlayback = true)
    ∧ (s.pending.isPlayback = true →
      s.state = .AI_SPEAKING ∧ s.captureActive = false)
    ∧ (s.pending.isService = true →
      s.state = .THINKING ∧ s.captureActive = false ∧
        s.playbackActive = false)

set_option maxHeartbeats 3200000 in
theorem invA_step (e : Event) (s : OrchState) (h : InvA s) :
    InvA (step e s) := by
  obtain ⟨h1, h2, h3, h4⟩ := h
  cases e <;>
    simp only [InvA, step, startListening, stopListening, stopAllMedia,
      processNextTurn, afterPlay, playCall, repeatCurrentQuestion,
      Pending.isService, Pending.isPlayback] <;>
    (repeat' split) <;>
    (try simp_all [Pending.isService, Pending.isPlayback]) <;>
    (rcases hp : s.pending with _ | ⟨t2, k2⟩ | u2 <;>
      simp_all [Pending.isService, Pending.isPlayback])

theorem invA_init (g : String) : InvA (initState g) := by
  simp [InvA, initState, Pending.isService, Pending.isPlayback]

theorem invA_run (s : OrchState) (evs : List Event) (h : InvA s) :
    InvA (run s evs) := by
  induction evs generalizing s with
  | nil => exact h
  | cons e evs ih => exact ih _ (invA_step e s h)

/-- C4: at every instant of every event sequence from the initial state,
at most one of speech capture and audio playback is active, and both are
inactive whenever the state is `THINKING` or one of the door transition
states. -/
theorem c4_media_exclusion (g : String) (evs : List Event) :
    ¬((run (initState g) evs).captureActive = true ∧
        (run (initState g) evs).playbackActive = true) ∧
      ((run (initState g) evs).state = .THINKING ∨
          (run (initState g) evs).state = .DOOR_OPENING ∨
          (run (initState g) evs).state = .DOOR_CLOSING →
        (run (initState g) evs).captureActive = false ∧
          (run (initState g) evs).playbackActive = false) := by
  obtain ⟨h1, h2, h3, h4⟩ := invA_run (initState g) evs (invA_init g)
  constructor
  · rintro ⟨hc, hp⟩
    rw [(h1 hc).2.2] at hp
    cases hp
  · intro hst
    constructor
    · cases hc : (run (initState g) evs).captureActive
      · rfl
      · have hul := (h1 hc).1
        rcases hst with h | h | h <;> rw [hul] at h <;>
          exact absurd h (by decide)
    · cases hp : (run (initState g) evs).playbackActive
      · rfl
      · have hai := (h2 hp).1
        rcases hst with h | h | h <;> rw [hai] at h <;>
          exact absurd h (by decide)

/-- Witness for C4: a concrete run ending in `THINKING` with both media
flags off. -/
theorem c4_media_exclusion_witness :
    (run (initState "Hi") [.greetTimerFired, .playbackFinished,
        .speechResult [(true, "ok")], .captureEnded]).captureActive
        = false ∧
      (run (initState "Hi") [.greetTimerFired, .playbackFinished,
        .speechResult [(true, "ok")], .captureEnded]).playbackActive
        = false :=
  (c4_media_exclusion "Hi" [.greetTimerFired, .playbackFinished,
    .speechResult [(true, "ok")], .captureEnded]).2 (Or.inl (by decide))

/-! ## Turn-history ordering and phase tracking -/

/-- The inductive invariant behind turn-history ordering and phase
tracking: while a decision-service call is outstanding, the adjudicated
user turn is the last history entry; while the playback of an
`ASK_MAIN`/`ASK_FOLLOWUP` question is outstanding, that AI turn is the
last history entry; and the phase is `FOLLOWUP` exactly when the most
recent applied phase-updating response was a follow-up request. -/
def InvB (s : OrchState) : Prop :=
  (∀ u, s.pending = .service u →
      ∃ a, s.turns.getLast? = some ⟨.user, a, u⟩)
    ∧ (∀ t, s.pending = .playback t .question →
      s.turns.getLast? = some ⟨.ai, t, ""⟩)
    ∧ (s.phase = .FOLLOWUP ↔ s.lastAskFollowup = some true)

set_option maxHeartbeats 3200000 in
theorem invB_step (e : Event) (s : OrchState) (hA : InvA s) (hB : InvB s) :
    InvB (step e s) := by
  obtain ⟨h1, h2, h3, h4⟩ := hA
  obtain ⟨g1, g2, g3⟩ := hB
  cases e <;>
    simp only [InvB, step, startListening, stopListening, stopAllMedia,
      processNextTurn, afterPlay, playCall, repeatCurrentQuestion,
      Pending.isService, Pending.isPlayback] <;>
    (repeat' split) <;>
    (try simp_all [Pending.isService, Pending.isPlayback,
      List.getLast?_concat]) <;>
    (rcases hp : s.pending with _ | ⟨t2, k2⟩ | u2 <;>
      simp_all [Pending.isService, Pending.isPlayback,
        List.getLast?_concat])

theorem invB_init (g : String) : InvB (initState g) := by
  simp [InvB, initState]

theorem invB_run (s : OrchState) (evs : List Event)
    (hA : InvA s) (hB : InvB s) : InvB (run s evs) := by
  induction evs generalizing s with
  | nil => exact hB
  | cons e evs ih => exact ih _ (invA_step e s hA) (invB_step e s hA hB)

/-- Counterexample to C1 as stated: a run in which the 30s repeat timer
fires (the state moves to `AI_SPEAKING` with the repeat utterance pending)
yet `repeatRequestCount` stays 0 — the self-triggered silence repeat does
not increment the counter. -/
theorem c1_counterexample :
    (run (initState "Hi") [.greetTimerFired, .playbackFinished,
        .repeatTimerFired]).pending
        = .playback ("Let me repeat the question. Hi") .repeatLocal ∧
      (run (initState "Hi") [.greetTimerFired, .playbackFinished,
        .repeatTimerFired]).repeatRequestCount = 0 := by
  decide

/-- C2: when the decision-service call for a submitted user turn fails
(network error or non-2xx), the orchestrator returns to `USER_LISTENING`
and restarts capture, with the interviewer text, the turn history, and all
counters exactly as they were when the call was issued — nothing is
recorded for the failure. -/
theorem c2_service_failure_recovery (s : OrchState) (u : String)
    (hp : s.pending = .service u) (hex : s.isExiting = false) :
    (step (.serviceResponse none) s).state = .USER_LISTENING ∧
      (step (.serviceResponse none) s).captureActive = true ∧
      (step (.serviceResponse none) s).currentAiText = s.currentAiText ∧
      (step (.serviceResponse none) s).turns = s.turns ∧
      (step (.serviceResponse none) s).phase = s.phase ∧
      (step (.serviceResponse none) s).mainQuestionIndex
        = s.mainQuestionIndex ∧
      (step (.serviceResponse none) s).followupCount = s.followupCount ∧
      (step (.serviceResponse none) s).repeatRequestCount
        = s.repeatRequestCount := by
  simp [step, hp, startListening, hex]

/-- Witness for C2: the failure response applied to a concrete run that
has just submitted the transcript of a user turn. -/
theorem c2_service_failure_recovery_witness :
    (step (.serviceResponse none) (run (initState "Hi")
        [.greetTimerFired, .playbackFinished,
          .speechResult [(true, "I led the project")],
          .captureEnded])).state = .USER_LISTENING ∧
      (step (.serviceResponse none) (run (initState "Hi")
        [.greetTimerFired, .playbackFinished,
          .speechResult [(true, "I led the project")],
          .captureEnded])).captureActive = true :=
  have h := c2_service_failure_recovery (run (initState "Hi")
    [.greetTimerFired, .playbackFinished,
      .speechResult [(true, "I led the project")], .captureEnded])
    "I led the project" (by decide) (by decide)
  ⟨h.1, h.2.1⟩

/-- C3 (amended): in every reachable state, a user turn is in the history
as the most recent entry while its decision-service call is outstanding
(so it was appended before the call was issued), and an AI turn produced
by an `ASK_MAIN`/`ASK_FOLLOWUP` response is the most recent history entry
while its playback is outstanding (so it was appended before that
playback begins); the greeting AI turn and the final `END` AI turn are
exceptions, recorded only after their playback completes. -/
theorem c3_append_order (g : String) (evs : List Event) :
    (∀ u, (run (initState g) evs).pending = .service u →
        ∃ a, (run (initState g) evs).turns.getLast?
          = some ⟨.user, a, u⟩) ∧
      (∀ t, (run (initState g) evs).pending = .playback t .question →
        (run (initState g) evs).turns.getLast? = some ⟨.ai, t, ""⟩) := by
  obtain ⟨g1, g2, g3⟩ :=
    invB_run (initState g) evs (invA_init g) (invB_init g)
  exact ⟨g1, g2⟩

/-- Witness for C3 (amended): a concrete run awaiting the decision service
whose last history entry is the submitted user turn. -/
theorem c3_append_order_witness :
    ∃ a, (run (initState "Hi") [.greetTimerFired, .playbackFinished,
        .speechResult [(true, "yes")], .captureEnded]).turns.getLast?
        = some ⟨.user, a, "yes"⟩ :=
  (c3_append_order "Hi" [.greetTimerFired, .playbackFinished,
    .speechResult [(true, "yes")], .captureEnded]).1 "yes" (by decide)

/-- Counterexample to C3 as stated: the greeting playback has begun (the
playing flag is up) while the turn history is still empty — the greeting
AI turn is appended only after its playback completes, not before it
begins. -/
theorem c3_counterexample :
    (run (initState "Hi")
        [.greetTimerFired, .playbackStarted]).playbackActive = true ∧
      (run (initState "Hi")
        [.greetTimerFired, .playbackStarted]).turns = [] := by
  decide

/-- Counterexample to C6 as stated: a full 30s-silence repeat cycle
(timer fires, repeat utterance plays, capture restarts) after which
`repeatRequestCount` is 0, not 1 as the claim requires. -/
theorem c6_counterexample :
    (run (initState "Hi") [.greetTimerFired, .playbackFinished,
        .repeatTimerFired, .playbackFinished]).state
        = .USER_LISTENING ∧
      (run (initState "Hi") [.greetTimerFired, .playbackFinished,
        .repeatTimerFired, .playbackFinished]).captureActive = true ∧
      (run (initState "Hi") [.greetTimerFired, .playbackFinished,
        .repeatTimerFired, .playbackFinished]).repeatRequestCount
        = 0 := by
  decide

/-- C6 (amended): when the 30s repeat timer fires with no speech observed
in `USER_LISTENING`, exactly one repeat utterance — the string
`"Let me repeat the question. "` concatenated with the current
interviewer text — is queued for playback without consulting the decision
service, no entry is added to `turns`, and once its playback finishes the
state returns to `USER_LISTENING` with capture restarted; however
`repeatRequestCount` is left unchanged (it does not become 1). -/
theorem c6_silence_repeat (s : OrchState)
    (harm : s.repeatArmed = true) (hsp : s.speechStarted = false)
    (hex : s.isExiting = false) (hmut : s.muted = false)
    (hst : s.state = .USER_LISTENING) (htxt : s.currentAiText ≠ "") :
    (step .repeatTimerFired s).pending
        = .playback ("Let me repeat the question. " ++ s.currentAiText)
          .repeatLocal ∧
      (step .repeatTimerFired s).state = .AI_SPEAKING ∧
      (step .repeatTimerFired s).serviceRequests = s.serviceRequests ∧
      (step .repeatTimerFired s).turns = s.turns ∧
      (step .repeatTimerFired s).repeatRequestCount
        = s.repeatRequestCount ∧
      (step .playbackFinished (step .repeatTimerFired s)).state
        = .USER_LISTENING ∧
      (step .playbackFinished (step .repeatTimerFired s)).captureActive
        = true ∧
      (step .playbackFinished (step .repeatTimerFired s)).turns
        = s.turns ∧
      (step .playbackFinished (step .repeatTimerFired s)).serviceRequests
        = s.serviceRequests ∧
      (step .playbackFinished (step .repeatTimerFired s)).repeatRequestCount
        = s.repeatRequestCount := by
  simp [step, repeatCurrentQuestion, playCall, afterPlay, startListening,
    harm, hsp, hex, hmut, hst, htxt]

/-- Witness for C6 (amended): the repeat cycle run from a concrete
reachable listening state. -/
theorem c6_silence_repeat_witness :
    (step .playbackFinished (step .repeatTimerFired (run (initState "Hi")
        [.greetTimerFired, .playbackFinished]))).captureActive = true ∧
      (step .playbackFinished (step .repeatTimerFired (run (initState "Hi")
        [.greetTimerFired, .playbackFinished]))).repeatRequestCount
        = (run (initState "Hi")
          [.greetTimerFired, .playbackFinished]).repeatRequestCount :=
  have h := c6_silence_repeat (run (initState "Hi")
    [.greetTimerFired, .playbackFinished]) (by decide) (by decide)
    (by decide) (by decide) (by decide) (by decide)
  ⟨h.2.2.2.2.2.2.1, h.2.2.2.2.2.2.2.2.2⟩

/-- C7: an applied `REPEAT_QUESTION` decision-service response increments
`repeatRequestCount`, updates the displayed interviewer text to the
response text and queues its playback, but appends no AI turn to the turn
history and leaves phase, `mainQuestionIndex` and `followupCount`
unchanged. -/
theorem c7_repeat_response_frame (s : OrchState) (u : String)
    (d : TurnDecision) (hp : s.pending = .service u)
    (hex : s.isExiting = false) (hmut : s.muted = false)
    (hact : d.action = .REPEAT_QUESTION) :
    (step (.serviceResponse (some d)) s).repeatRequestCount
        = s.repeatRequestCount + 1 ∧
      (step (.serviceResponse (some d)) s).currentAiText = d.aiText ∧
      (step (.serviceResponse (some d)) s).turns = s.turns ∧
      (step (.serviceResponse (some d)) s).phase = s.phase ∧
      (step (.serviceResponse (some d)) s).mainQuestionIndex
        = s.mainQuestionIndex ∧
      (step (.serviceResponse (some d)) s).followupCount
        = s.followupCount ∧
      (step (.serviceResponse (some d)) s).state = .AI_SPEAKING ∧
      (step (.serviceResponse (some d)) s).pending
        = .playback d.aiText .repeatService := by
  simp [step, hp, hact, playCall, hex, hmut]

/-- Witness for C7: a concrete `REPEAT_QUESTION` response applied to a
run awaiting the decision service. -/
theorem c7_repeat_response_frame_witness :
    (step (.serviceResponse (some ⟨.REPEAT_QUESTION, "Again.", 0, 0⟩))
        (run (initState "Hi") [.greetTimerFired, .playbackFinished,
          .speechResult [(true, "um")], .captureEnded])).repeatRequestCount
        = (run (initState "Hi") [.greetTimerFired, .playbackFinished,
          .speechResult [(true, "um")],
          .captureEnded]).repeatRequestCount + 1 ∧
      (step (.serviceResponse (some ⟨.REPEAT_QUESTION, "Again.", 0, 0⟩))
        (run (initState "Hi") [.greetTimerFired, .playbackFinished,
          .speechResult [(true, "um")], .captureEnded])).turns
        = (run (initState "Hi") [.greetTimerFired, .playbackFinished,
          .speechResult [(true, "um")], .captureEnded]).turns :=
  have h := c7_repeat_response_frame (run (initState "Hi")
    [.greetTimerFired, .playbackFinished, .speechResult [(true, "um")],
      .captureEnded]) "um" ⟨.REPEAT_QUESTION, "Again.", 0, 0⟩
    (by decide) (by decide) (by decide) (by decide)
  ⟨h.1, h.2.2.1⟩

/-! ## Follow-up counter and phase -/

/-- A decision-service response event carries a `followupCount` within
the contract range `[0,2]`; all other events are unconstrained. -/
def responseWellFormed (e : Event) : Bool :=
  match e with
  | .serviceResponse (some d) =>
      decide (0 ≤ d.followupCount ∧ d.followupCount ≤ 2)
  | _ => true

theorem fc_step (e : Event) (s : OrchState)
    (h0 : 0 ≤ s.followupCount) (h2 : s.followupCount ≤ 2)
    (hw : responseWellFormed e = true) :
    0 ≤ (step e s).followupCount ∧ (step e s).followupCount ≤ 2 := by
  cases e <;>
    simp only [step, responseWellFormed, startListening, stopListening,
      stopAllMedia, processNextTurn, afterPlay, playCall,
      repeatCurrentQuestion, decide_eq_true_eq] at hw ⊢ <;>
    (repeat' split) <;> simp_all

theorem fc_run (s : OrchState) (evs : List Event)
    (h0 : 0 ≤ s.followupCount) (h2 : s.followupCount ≤ 2)
    (hw : ∀ e ∈ evs, responseWellFormed e = true) :
    0 ≤ (run s evs).followupCount ∧ (run s evs).followupCount ≤ 2 := by
  induction evs generalizing s with
  | nil => exact ⟨h0, h2⟩
  | cons e evs ih =>
      have h := fc_step e s h0 h2 (hw e (by simp))
      exact ih _ h.1 h.2 (fun e2 he2 => hw e2 (by simp [he2]))

/-- C8 (amended): in every state reachable under decision-service
responses whose `followupCount` lies in `[0,2]`, the stored
`followupCount` lies in `[0,2]` (the core applies it verbatim and never
changes it locally); and the phase is `FOLLOWUP` iff the most recent
applied phase-updating response (`ASK_MAIN`/`ASK_FOLLOWUP`) requested a
follow-up — `REPEAT_QUESTION` and `END` responses leave the phase
unchanged, so the iff does not hold of the most recent response
outright. -/
theorem c8_followup_invariant (g : String) (evs : List Event)
    (hw : ∀ e ∈ evs, responseWellFormed e = true) :
    (0 ≤ (run (initState g) evs).followupCount ∧
        (run (initState g) evs).followupCount ≤ 2) ∧
      ((run (initState g) evs).phase = .FOLLOWUP ↔
        (run (initState g) evs).lastAskFollowup = some true) := by
  refine ⟨fc_run (initState g) evs (by simp [initState])
    (by simp [initState]) hw, ?_⟩
  exact (invB_run (initState g) evs (invA_init g) (invB_init g)).2.2

/-- Witness for C8 (amended): a concrete run through an `ASK_FOLLOWUP`
response with `followupCount = 1`. -/
theorem c8_followup_invariant_witness :
    (0 ≤ (run (initState "Hi") [.greetTimerFired, .playbackFinished,
        .speechResult [(true, "a")], .captureEnded,
        .serviceResponse (some ⟨.ASK_FOLLOWUP, "Why?", 0, 1⟩)]).followupCount ∧
      (run (initState "Hi") [.greetTimerFired, .playbackFinished,
        .speechResult [(true, "a")], .captureEnded,
        .serviceResponse (some ⟨.ASK_FOLLOWUP, "Why?", 0, 1⟩)]).followupCount
        ≤ 2) ∧
      ((run (initState "Hi") [.greetTimerFired, .playbackFinished,
        .speechResult [(true, "a")], .captureEnded,
        .serviceResponse (some ⟨.ASK_FOLLOWUP, "Why?", 0, 1⟩)]).phase
        = .FOLLOWUP ↔
        (run (initState "Hi") [.greetTimerFired, .playbackFinished,
          .speechResult [(true, "a")], .captureEnded,
          .serviceResponse (some ⟨.ASK_FOLLOWUP, "Why?", 0, 1⟩)]).lastAskFollowup
          = some true) :=
  c8_followup_invariant "Hi" [.greetTimerFired, .playbackFinished,
    .speechResult [(true, "a")], .captureEnded,
    .serviceResponse (some ⟨.ASK_FOLLOWUP, "Why?", 0, 1⟩)] (by decide)

/-- Counterexample to C8 as stated: after an `ASK_FOLLOWUP` response
followed by a `REPEAT_QUESTION` response, the phase is still `FOLLOWUP`
although the most recent decision-service response did not request a
follow-up — the iff of the claim fails. -/
theorem c8_counterexample :
    (run (initState "Hi") [.greetTimerFired, .playbackFinished,
        .speechResult [(true, "a")], .captureEnded,
        .serviceResponse (some ⟨.ASK_FOLLOWUP, "Why?", 0, 1⟩),
        .playbackFinished, .speechResult [(true, "b")], .captureEnded,
        .serviceResponse (some ⟨.REPEAT_QUESTION, "Why? Again.", 0, 0⟩)]).phase
        = .FOLLOWUP ∧
      (run (initState "Hi") [.greetTimerFired, .playbackFinished,
        .speechResult [(true, "a")], .captureEnded,
        .serviceResponse (some ⟨.ASK_FOLLOWUP, "Why?", 0, 1⟩),
        .playbackFinished, .speechResult [(true, "b")], .captureEnded,
        .serviceResponse (some ⟨.REPEAT_QUESTION, "Why? Again.", 0, 0⟩)]).lastResponseAction
        = some .REPEAT_QUESTION := by
  decide

/-- C10: a capture `end` event in `USER_LISTENING` with both the snapshot
reference and the display transcript empty performs no state transition,
appends no turn, issues no service call, and starts no new capture: the
step only deactivates capture and clears all three watchdog timers. -/
theorem c10_empty_end_noop (s : OrchState)
    (hst : s.state = .USER_LISTENING) (hc : s.captureActive = true)
    (hr : s.transcriptRef = "") (ht : s.transcript = "") :
    step .captureEnded s =
      { s with
        captureActive := false
        silenceArmed := false
        noSpeechArmed := false
        repeatArmed := false } := by
  simp [step, hc, hr, ht]

/-- Witness for C10: the empty-transcript end event applied to a concrete
listening state. -/
theorem c10_empty_end_noop_witness :
    step .captureEnded
        (run (initState "Hi") [.greetTimerFired, .playbackFinished])
      = { run (initState "Hi") [.greetTimerFired, .playbackFinished] with
          captureActive := false
          silenceArmed := false
          noSpeechArmed := false
          repeatArmed := false } :=
  c10_empty_end_noop (run (initState "Hi")
      [.greetTimerFired, .playbackFinished])
    (by decide) (by decide) (by decide) (by decide)

/-! ## playAudio resource handling -/

/-- How the created `Audio` element settles the `playAudio` promise. -/
inductive PlayOutcome where
  /-- `audio.onended` fires (line 151). -/
  | ended
  /-- `audio.onerror` fires (line 156), spontaneously or because an exit
  tore the element down (`pause()` plus clearing `src`). -/
  | errored
  /-- `audio.play()` rejects (line 167). -/
  | playRejected
deriving DecidableEq, Repr

/-- One execution scenario of `playAudio` (lines 121-175): the facts the
function consults, in program order.  `exiting0`..`exiting3` are the
values of `isExitingRef.current` at the four checkpoints (lines 122, 132,
137 and 161). -/
structure PlayScript where
  muted : Bool
  exiting0 : Bool
  /-- The `apiFetch`/`blob` call throws (caught at line 172). -/
  fetchThrows : Bool
  /-- `response.ok` (line 132). -/
  respOk : Bool
  exiting1 : Bool
  exiting2 : Bool
  exiting3 : Bool
  outcome : PlayOutcome
deriving DecidableEq, Repr

/-- Observables of one `playAudio` run: whether the async function's
promise settles by resolution (it never rejects), whether an object URL
was created, and whether it was revoked. -/
structure PlayResult where
  resolved : Bool
  urlCreated : Bool
  urlRevoked : Bool
deriving DecidableEq, Repr

/-- `playAudio`, lines 121-175, path by path.  Every `return` of the
async function and every `resolve()` call of the inner promise resolves
the returned promise; the `catch` at line 172 absorbs fetch failures. -/
def playAudioModel (sc : PlayScript) : PlayResult :=
  if sc.muted || sc.exiting0 then ⟨true, false, false⟩
  else if sc.fetchThrows then ⟨true, false, false⟩
  else if !sc.respOk || sc.exiting1 then ⟨true, false, false⟩
  else if sc.exiting2 then ⟨true, true, true⟩
  else if sc.exiting3 then ⟨true, true, true⟩
  else
    match sc.outcome with
    | .ended => ⟨true, true, true⟩
    | .errored => ⟨true, true, false⟩
    | .playRejected => ⟨true, true, false⟩

/-- Counterexample to C9 as stated: on the playback-error path (tts fetch
succeeded, the object URL was created, then the audio element errors) the
promise resolves but the object URL is never revoked — release is not
guaranteed on every exit path. -/
theorem c9_counterexample :
    (playAudioModel
          ⟨false, false, false, true, false, false, false, .errored⟩).urlCreated
        = true ∧
      (playAudioModel
          ⟨false, false, false, true, false, false, false, .errored⟩).urlRevoked
        = false := by
  decide

/-- C9 (amended): `playAudio` always resolves and never rejects — on
mute, exit pre-emption, fetch failure, playback end, playback error and
rejected `play()` alike — and the temporary object URL is revoked exactly
when it was created and either an exit checkpoint after its creation
fired or playback ended normally; on the playback-error and rejected
`play()` paths the URL is not revoked. -/
theorem c9_play_resolution (sc : PlayScript) :
    (playAudioModel sc).resolved = true ∧
      (playAudioModel sc).urlRevoked
        = ((playAudioModel sc).urlCreated
          && (sc.exiting2 || sc.exiting3 || sc.outcome == .ended)) := by
  obtain ⟨m, e0, ft, ro, e1, e2, e3, oc⟩ := sc
  cases m <;> cases e0 <;> cases ft <;> cases ro <;> cases e1 <;>
    cases e2 <;> cases e3 <;> cases oc <;> decide

end Rehearse
